import Mathlib

/-!
Shallow embedding of the notification-dispatch path of the seekon backend
(`src/server/src/utils/email.js`) and of the upload controller
(`src/server/src/controllers/uploadController.js`), with theorems checking
the specification's claims about them.

Collaborator behaviour (the optional nodemailer library, transport
construction, the SMTP send, the object-storage upload, the filesystem
unlink) is modelled by explicit behaviour parameters; environment variables
by a record of optional strings; the JavaScript objects returned to callers
by literal key/value association lists, so the exact field names of the
returned contract are visible in the model.
-/

/-- A JavaScript value as it occurs in the objects this code returns. -/
inductive JsValue where
  | bool (b : Bool)
  | str (s : String)
  | obj (fields : List (String × JsValue))

/-- A JavaScript object literal: ordered key/value pairs. -/
abbrev JsObject := List (String × JsValue)

/-- Field access `o.k` on an object literal (first binding wins). -/
def getField : JsObject → String → Option JsValue
  | [], _ => none
  | (k, v) :: rest, key => if k = key then some v else getField rest key

/-- The environment variables `email.js` reads, each possibly unset. -/
structure Env where
  EMAIL_USER : Option String
  EMAIL_PASS : Option String
  EMAIL_HOST : Option String
  EMAIL_PORT : Option String
  CLIENT_URL : Option String
deriving DecidableEq, Repr

/-- JavaScript truthiness of a possibly-unset environment string:
`undefined` and the empty string are falsy. -/
def truthy : Option String → Bool
  | none => false
  | some s => !s.isEmpty

/-- JavaScript `x || d` for a possibly-unset environment string `x` and a
string default `d`. -/
def jsOr (o : Option String) (d : String) : String :=
  if truthy o then o.getD d else d

/-- Numeric value of a digit character in bases up to 16, via code points:
48 to 57 are the decimal digits, 97 to 102 and 65 to 70 the letters `a`-`f`
and `A`-`F`; `none` for anything else. -/
def jsDigitVal (c : Char) : Option Nat :=
  let n := c.toNat
  if 48 ≤ n && n ≤ 57 then some (n - 48)
  else if 97 ≤ n && n ≤ 102 then some (n - 87)
  else if 65 ≤ n && n ≤ 70 then some (n - 55)
  else none

/-- Value of the longest prefix of digits valid in `base`, accumulated into
`acc`; `none` when no digit at all was consumed (JavaScript `NaN`). -/
def digitsPrefixVal (base : Nat) : List Char → Option Nat → Option Nat
  | [], acc => acc
  | c :: cs, acc =>
    match jsDigitVal c with
    | some d =>
      if d < base then digitsPrefixVal base cs (some (acc.getD 0 * base + d))
      else acc
    | none => acc

/-- Whitespace skipped by JavaScript `parseInt` before the number: space,
tab, line feed and carriage return, recognized by code point. -/
def isJsSpace (c : Char) : Bool :=
  c.toNat = 32 || c.toNat = 9 || c.toNat = 10 || c.toNat = 13

/-- JavaScript `parseInt(s)` with no radix argument: skip whitespace, read
an optional sign, honour a `0x`/`0X` prefix, then take the longest valid
digit prefix; `none` models `NaN`. -/
def jsParseInt (s : String) : Option Int :=
  let cs := s.toList.dropWhile isJsSpace
  let signAndRest : Int × List Char :=
    match cs with
    | '-' :: rest => (-1, rest)
    | '+' :: rest => (1, rest)
    | _ => (1, cs)
  let mag : Option Nat :=
    match signAndRest.2 with
    | '0' :: c :: tl =>
      if c = 'x' || c = 'X' then digitsPrefixVal 16 tl none
      else digitsPrefixVal 10 signAndRest.2 none
    | _ => digitsPrefixVal 10 signAndRest.2 none
  mag.map (fun n => signAndRest.1 * n)

/-- The configuration object passed to `nodemailer.createTransport`
(`email.js` lines 34 to 49). `port` is `none` when `parseInt` gave `NaN`. -/
structure TransportConfig where
  host : String
  port : Option Int
  secure : Bool
  authUser : String
  authPass : String
  rejectUnauthorized : Bool
  connectionTimeout : Nat
  greetingTimeout : Nat
  socketTimeout : Nat
deriving DecidableEq, Repr

/-- The transport configuration `getTransporter` constructs from the
environment when both credentials are truthy: host defaults to
`smtp.gmail.com`, port to `parseInt(EMAIL_PORT || "587")`, and `secure` is
the strict string comparison `EMAIL_PORT === "465"`. -/
def mkTransportConfig (env : Env) : TransportConfig where
  host := jsOr env.EMAIL_HOST "smtp.gmail.com"
  port := jsParseInt (jsOr env.EMAIL_PORT "587")
  secure := env.EMAIL_PORT == some "465"
  authUser := env.EMAIL_USER.getD ""
  authPass := env.EMAIL_PASS.getD ""
  rejectUnauthorized := false
  connectionTimeout := 10000
  greetingTimeout := 10000
  socketTimeout := 10000

/-- The module-level mutable state of `email.js`: the memoized transporter
and the `nodemailerChecked` flag (lines 4 and 5). -/
structure EmailState where
  transporter : Option TransportConfig
  nodemailerChecked : Bool
deriving DecidableEq, Repr

/-- The state at module load: `transporter = null`,
`nodemailerChecked = false`. -/
def EmailState.initial : EmailState := ⟨none, false⟩

/-- A JavaScript error as rejected by `sendMail`: an optional `code`
property and a `message`. -/
structure JsError where
  code : Option String
  message : String
deriving DecidableEq, Repr

/-- Behaviour of one `transporter.sendMail` call: resolve, or reject with
an error. -/
inductive SendBehavior where
  | ok
  | fail (e : JsError)
deriving DecidableEq, Repr

/-- Behaviour of the collaborators during one call into `email.js`:
whether `require("nodemailer")` succeeds, whether `createTransport` throws,
and what `sendMail` does. -/
structure Collab where
  nodemailerLoads : Bool
  createTransportThrows : Bool
  send : SendBehavior
deriving DecidableEq, Repr

/-- `getTransporter` (`email.js` lines 19 to 60): return the memoized
transporter if present; if the check already ran, return `null`; otherwise
load nodemailer (failure marks checked and returns `null`), and when both
credentials are truthy try to construct and cache a transport — a
`createTransport` throw is caught and leaves the transporter `null`; in
every remaining case mark the check done and return the transporter. -/
def getTransporter (env : Env) (c : Collab) (st : EmailState) :
    Option TransportConfig × EmailState :=
  match st.transporter with
  | some t => (some t, st)
  | none =>
    if st.nodemailerChecked then (none, st)
    else if !c.nodemailerLoads then (none, { st with nodemailerChecked := true })
    else if truthy env.EMAIL_USER && truthy env.EMAIL_PASS then
      if c.createTransportThrows then
        (none, { st with nodemailerChecked := true })
      else
        let t := mkTransportConfig env
        (some t, { transporter := some t, nodemailerChecked := true })
    else
      (none, { st with nodemailerChecked := true })

/-- The verification action URL (`email.js` line 83): client base URL
(default `http://localhost:5173`) ++ `/verify-email/` ++ token, verbatim. -/
def verificationUrlOf (env : Env) (token : String) : String :=
  jsOr env.CLIENT_URL "http://localhost:5173" ++ "/verify-email/" ++ token

/-- The password-reset action URL (`email.js` line 137). -/
def resetUrlOf (env : Env) (token : String) : String :=
  jsOr env.CLIENT_URL "http://localhost:5173" ++ "/reset-password/" ++ token

/-- Development-mode fallback object of `sendVerificationEmail`
(lines 91 to 96); the URL key is `verificationUrl`. -/
def verificationDevOutcome (url : String) : JsObject :=
  [("success", .bool true),
   ("message", .str "Email logged to console (check server logs)"),
   ("development", .bool true),
   ("verificationUrl", .str url)]

/-- Success object of `sendVerificationEmail` (line 117). -/
def verificationSentOutcome : JsObject :=
  [("success", .bool true),
   ("message", .str "Verification email sent successfully")]

/-- Connection-failure fallback object of `sendVerificationEmail`
(lines 124 to 129). -/
def verificationSmtpFallbackOutcome (url : String) : JsObject :=
  [("success", .bool true),
   ("message", .str "Email logged to console (SMTP connection failed - check your network/firewall)"),
   ("development", .bool true),
   ("verificationUrl", .str url)]

/-- Permanent-failure object of `sendVerificationEmail` (line 131). -/
def verificationFailedOutcome (errMsg : String) : JsObject :=
  [("success", .bool false),
   ("message", .str "Failed to send verification email"),
   ("error", .str errMsg)]

/-- Development-mode fallback object of `sendPasswordResetEmail`
(lines 145 to 150); the URL key is `resetUrl`. -/
def resetDevOutcome (url : String) : JsObject :=
  [("success", .bool true),
   ("message", .str "Email logged to console (check server logs)"),
   ("development", .bool true),
   ("resetUrl", .str url)]

/-- Success object of `sendPasswordResetEmail` (line 171). -/
def resetSentOutcome : JsObject :=
  [("success", .bool true),
   ("message", .str "Password reset email sent successfully")]

/-- Connection-failure fallback object of `sendPasswordResetEmail`
(lines 178 to 183). -/
def resetSmtpFallbackOutcome (url : String) : JsObject :=
  [("success", .bool true),
   ("message", .str "Email logged to console (SMTP connection failed - check your network/firewall)"),
   ("development", .bool true),
   ("resetUrl", .str url)]

/-- Permanent-failure object of `sendPasswordResetEmail` (line 185). -/
def resetFailedOutcome (errMsg : String) : JsObject :=
  [("success", .bool false),
   ("message", .str "Failed to send password reset email"),
   ("error", .str errMsg)]

/-- Result of one dispatcher call: the returned object, the module state
after the call, the `logEmailToConsole` invocations (kind, recipient, URL)
in order, and how many times `sendMail` was attempted. -/
structure CallResult where
  outcome : JsObject
  state : EmailState
  fallbackLogs : List (String × String × String)
  sendAttempts : Nat

/-- `sendVerificationEmail` (`email.js` lines 82 to 133): build the action
URL, resolve the transporter; without one, log the console fallback and
return the development object; with one, attempt the send; on rejection
with code `ESOCKET`, `ETIMEDOUT` or `ECONNREFUSED` log the console
fallback and return the connection-failure object, on any other rejection
return the permanent-failure object with the error's message. -/
def sendVerificationEmail (env : Env) (c : Collab) (email token : String)
    (st : EmailState) : CallResult :=
  let verificationUrl := verificationUrlOf env token
  let r := getTransporter env c st
  match r.1 with
  | none =>
    { outcome := verificationDevOutcome verificationUrl
      state := r.2
      fallbackLogs := [("VERIFICATION EMAIL", email, verificationUrl)]
      sendAttempts := 0 }
  | some _ =>
    match c.send with
    | .ok =>
      { outcome := verificationSentOutcome
        state := r.2
        fallbackLogs := []
        sendAttempts := 1 }
    | .fail e =>
      if e.code == some "ESOCKET" || e.code == some "ETIMEDOUT"
          || e.code == some "ECONNREFUSED" then
        { outcome := verificationSmtpFallbackOutcome verificationUrl
          state := r.2
          fallbackLogs := [("VERIFICATION EMAIL", email, verificationUrl)]
          sendAttempts := 1 }
      else
        { outcome := verificationFailedOutcome e.message
          state := r.2
          fallbackLogs := []
          sendAttempts := 1 }

/-- `sendPasswordResetEmail` (`email.js` lines 136 to 187), structurally
identical to `sendVerificationEmail` apart from URL path, console kind and
message strings. -/
def sendPasswordResetEmail (env : Env) (c : Collab) (email token : String)
    (st : EmailState) : CallResult :=
  let resetUrl := resetUrlOf env token
  let r := getTransporter env c st
  match r.1 with
  | none =>
    { outcome := resetDevOutcome resetUrl
      state := r.2
      fallbackLogs := [("PASSWORD RESET EMAIL", email, resetUrl)]
      sendAttempts := 0 }
  | some _ =>
    match c.send with
    | .ok =>
      { outcome := resetSentOutcome
        state := r.2
        fallbackLogs := []
        sendAttempts := 1 }
    | .fail e =>
      if e.code == some "ESOCKET" || e.code == some "ETIMEDOUT"
          || e.code == some "ECONNREFUSED" then
        { outcome := resetSmtpFallbackOutcome resetUrl
          state := r.2
          fallbackLogs := [("PASSWORD RESET EMAIL", email, resetUrl)]
          sendAttempts := 1 }
      else
        { outcome := resetFailedOutcome e.message
          state := r.2
          fallbackLogs := []
          sendAttempts := 1 }

/-- An environment with every variable unset. -/
def envEmpty : Env := ⟨none, none, none, none, none⟩

/-- Result of `uploadToCloudinary` on success (`url` and `public_id`). -/
structure CloudinaryResult where
  url : String
  public_id : String
deriving DecidableEq, Repr

/-- Behaviour of the collaborators during one `uploadFile` call: the
object-storage upload resolves or throws (with a message), and each of the
up to two `fs.unlinkSync` invocations returns or throws. -/
structure UploadCollab where
  uploadResult : Except String CloudinaryResult
  unlinkFirst : Except String Unit
  unlinkSecond : Except String Unit

/-- An HTTP response as sent through `res.status(n).json(body)`. -/
structure HttpResponse where
  status : Nat
  body : JsObject

/-- Result of one `uploadFile` call: the response, how many `unlinkSync`
calls were made, and how many unlink failures were caught by the inner
try/catch and merely logged. -/
structure UploadCallResult where
  response : HttpResponse
  unlinkCalls : Nat
  unlinkErrorsLogged : Nat

/-- The 500 body of `uploadFile`'s catch block (lines 49 to 52):
`message` is `error.message || "Upload failed"`. -/
def uploadErrBody (msg : String) : JsObject :=
  [("success", .bool false),
   ("message", .str (if msg.isEmpty then "Upload failed" else msg))]

/-- The 200 body of `uploadFile`'s success path (lines 24 to 31). -/
def uploadSuccessBody (r : CloudinaryResult) : JsObject :=
  [("success", .bool true),
   ("message", .str "File uploaded successfully"),
   ("data", .obj [("url", .str r.url), ("publicId", .str r.public_id)])]

/-- `uploadFile` (`uploadController.js` lines 9 to 54): 400 without a
file; otherwise upload, then unlink (unguarded) and respond 200; any throw
in the try — the upload or the success-path unlink — reaches the catch
block, which re-attempts the unlink inside an inner try/catch that only
logs, and responds 500 with the caught error's message. -/
def uploadFile (reqFilePath : Option String) (c : UploadCollab) :
    UploadCallResult :=
  match reqFilePath with
  | none =>
    { response := ⟨400, [("success", .bool false), ("message", .str "No file uploaded")]⟩
      unlinkCalls := 0
      unlinkErrorsLogged := 0 }
  | some _ =>
    match c.uploadResult with
    | .ok r =>
      match c.unlinkFirst with
      | .ok _ =>
        { response := ⟨200, uploadSuccessBody r⟩
          unlinkCalls := 1
          unlinkErrorsLogged := 0 }
      | .error m =>
        match c.unlinkSecond with
        | .ok _ =>
          { response := ⟨500, uploadErrBody m⟩
            unlinkCalls := 2
            unlinkErrorsLogged := 0 }
        | .error _ =>
          { response := ⟨500, uploadErrBody m⟩
            unlinkCalls := 2
            unlinkErrorsLogged := 1 }
    | .error msg =>
      match c.unlinkFirst with
      | .ok _ =>
        { response := ⟨500, uploadErrBody msg⟩
          unlinkCalls := 1
          unlinkErrorsLogged := 0 }
      | .error _ =>
        { response := ⟨500, uploadErrBody msg⟩
          unlinkCalls := 1
          unlinkErrorsLogged := 1 }

/-! Helper lemmas shared by the claim theorems. -/

/-- With a falsy credential and no cached transporter, the resolver yields
`null` and the state afterwards is exactly (no transporter, checked). -/
theorem getTransporter_noCreds (env : Env) (c : Collab) (st : EmailState)
    (hcred : (truthy env.EMAIL_USER && truthy env.EMAIL_PASS) = false)
    (ht : st.transporter = none) :
    getTransporter env c st = (none, ⟨none, true⟩) := by
  obtain ⟨tr, ck⟩ := st
  simp only at ht
  subst ht
  cases ck with
  | true => rfl
  | false =>
    cases hL : c.nodemailerLoads with
    | false => simp [getTransporter, hL]
    | true => simp [getTransporter, hL, hcred]

/-- The value under key `k` is a bool. -/
def boolAt (o : JsObject) (k : String) : Bool :=
  match getField o k with
  | some (.bool _) => true
  | _ => false

/-- The value under key `k` is a string. -/
def strAt (o : JsObject) (k : String) : Bool :=
  match getField o k with
  | some (.str _) => true
  | _ => false

/-- The value under key `k`, when present, is a bool. -/
def optBoolAt (o : JsObject) (k : String) : Bool :=
  match getField o k with
  | none => true
  | some (.bool _) => true
  | _ => false

/-- The value under key `k`, when present, is a string. -/
def optStrAt (o : JsObject) (k : String) : Bool :=
  match getField o k with
  | none => true
  | some (.str _) => true
  | _ => false

/-- Conformance of a dispatcher outcome object to the return contract with
the action URL expected under the field `urlKey`: a bool `success`, a
string `message`, optionally a bool `development` and a string `error`, no
keys beyond these five, and whenever `development` is present the URL field
holds exactly the action URL `url`. -/
def outcomeConforms (urlKey url : String) (o : JsObject) : Bool :=
  boolAt o "success" && strAt o "message" && optBoolAt o "development"
    && optStrAt o "error"
    && o.all (fun kv => ["success", "message", "development", urlKey, "error"].contains kv.1)
    && (match getField o "development" with
        | some _ =>
          (match getField o urlKey with
           | some (.str s) => s == url
           | _ => false)
        | none => true)

/-- Every `sendVerificationEmail` call returns one of its four literal
outcome objects. -/
theorem verification_outcome_cases (env : Env) (c : Collab) (email token : String)
    (st : EmailState) :
    (sendVerificationEmail env c email token st).outcome
        = verificationDevOutcome (verificationUrlOf env token)
    ∨ (sendVerificationEmail env c email token st).outcome = verificationSentOutcome
    ∨ (sendVerificationEmail env c email token st).outcome
        = verificationSmtpFallbackOutcome (verificationUrlOf env token)
    ∨ ∃ m, (sendVerificationEmail env c email token st).outcome
        = verificationFailedOutcome m := by
  cases hT : (getTransporter env c st).1 with
  | none => left; simp [sendVerificationEmail, hT]
  | some t =>
    cases hs : c.send with
    | ok => right; left; simp [sendVerificationEmail, hT, hs]
    | fail e =>
      cases hb : (e.code == some "ESOCKET" || e.code == some "ETIMEDOUT"
          || e.code == some "ECONNREFUSED") with
      | true =>
        right; right; left; simp [sendVerificationEmail, hT, hs, hb]
      | false =>
        right; right; right
        exact ⟨e.message, by simp [sendVerificationEmail, hT, hs, hb]⟩

/-- Every `sendPasswordResetEmail` call returns one of its four literal
outcome objects. -/
theorem reset_outcome_cases (env : Env) (c : Collab) (email token : String)
    (st : EmailState) :
    (sendPasswordResetEmail env c email token st).outcome
        = resetDevOutcome (resetUrlOf env token)
    ∨ (sendPasswordResetEmail env c email token st).outcome = resetSentOutcome
    ∨ (sendPasswordResetEmail env c email token st).outcome
        = resetSmtpFallbackOutcome (resetUrlOf env token)
    ∨ ∃ m, (sendPasswordResetEmail env c email token st).outcome
        = resetFailedOutcome m := by
  cases hT : (getTransporter env c st).1 with
  | none => left; simp [sendPasswordResetEmail, hT]
  | some t =>
    cases hs : c.send with
    | ok => right; left; simp [sendPasswordResetEmail, hT, hs]
    | fail e =>
      cases hb : (e.code == some "ESOCKET" || e.code == some "ETIMEDOUT"
          || e.code == some "ECONNREFUSED") with
      | true =>
        right; right; left; simp [sendPasswordResetEmail, hT, hs, hb]
      | false =>
        right; right; right
        exact ⟨e.message, by simp [sendPasswordResetEmail, hT, hs, hb]⟩

/-! Claim theorems. -/

/-- C1 (counterexample): the claim puts the action URL of every fallback
outcome under an `actionUrl` field of the returned object, but the objects
the code returns carry no `actionUrl` key at all — the URL sits under the
key `verificationUrl` respectively `resetUrl`. -/
theorem sendEmail_no_actionUrl_field :
    getField (sendVerificationEmail envEmpty ⟨false, false, .ok⟩
        "user@example.com" "tok123" EmailState.initial).outcome "actionUrl" = none
    ∧ getField (sendVerificationEmail envEmpty ⟨false, false, .ok⟩
        "user@example.com" "tok123" EmailState.initial).outcome "verificationUrl"
      = some (.str "http://localhost:5173/verify-email/tok123")
    ∧ getField (sendPasswordResetEmail envEmpty ⟨false, false, .ok⟩
        "user@example.com" "tok123" EmailState.initial).outcome "actionUrl" = none
    ∧ getField (sendPasswordResetEmail envEmpty ⟨false, false, .ok⟩
        "user@example.com" "tok123" EmailState.initial).outcome "resetUrl"
      = some (.str "http://localhost:5173/reset-password/tok123") :=
  ⟨rfl, rfl, rfl, rfl⟩

/-- C1 (amended): every outcome of both dispatchers conforms to the shape
{success: bool, message: string, development: optional bool, URL field:
optional string, error: optional string} with no other keys, and every
fallback outcome (those carrying `development`) holds exactly the action
URL in its URL field — but that field is named `verificationUrl` for
verification and `resetUrl` for password reset, not `actionUrl`. -/
theorem sendEmail_outcome_shape (env : Env) (c : Collab) (email token : String)
    (st : EmailState) :
    outcomeConforms "verificationUrl" (verificationUrlOf env token)
      (sendVerificationEmail env c email token st).outcome = true
    ∧ outcomeConforms "resetUrl" (resetUrlOf env token)
      (sendPasswordResetEmail env c email token st).outcome = true := by
  constructor
  · rcases verification_outcome_cases env c email token st with h | h | h | ⟨m, h⟩ <;>
      rw [h] <;>
        simp [outcomeConforms, verificationDevOutcome, verificationSentOutcome,
          verificationSmtpFallbackOutcome, verificationFailedOutcome,
          boolAt, strAt, optBoolAt, optStrAt, getField]
  · rcases reset_outcome_cases env c email token st with h | h | h | ⟨m, h⟩ <;>
      rw [h] <;>
        simp [outcomeConforms, resetDevOutcome, resetSentOutcome,
          resetSmtpFallbackOutcome, resetFailedOutcome,
          boolAt, strAt, optBoolAt, optStrAt, getField]

/-- C2: while `EMAIL_USER` or `EMAIL_PASS` is unset (falsy) — so that no
transporter is cached, which is invariant from module load under such an
environment — both dispatchers return the development fallback object with
`success: true` and `development: true` (never `success: false`), invoke
the console fallback exactly once with the call's recipient and action URL,
and leave the no-transporter state intact, so the same holds for every
later call of the process. -/
theorem sendEmail_missing_creds_fallback (env : Env) (c : Collab)
    (email token : String) (st : EmailState)
    (hcred : (truthy env.EMAIL_USER && truthy env.EMAIL_PASS) = false)
    (ht : st.transporter = none) :
    (sendVerificationEmail env c email token st).outcome
        = verificationDevOutcome (verificationUrlOf env token)
    ∧ getField (sendVerificationEmail env c email token st).outcome "success"
        = some (.bool true)
    ∧ getField (sendVerificationEmail env c email token st).outcome "development"
        = some (.bool true)
    ∧ (sendVerificationEmail env c email token st).fallbackLogs
        = [("VERIFICATION EMAIL", email, verificationUrlOf env token)]
    ∧ (sendVerificationEmail env c email token st).state.transporter = none
    ∧ (sendPasswordResetEmail env c email token st).outcome
        = resetDevOutcome (resetUrlOf env token)
    ∧ getField (sendPasswordResetEmail env c email token st).outcome "success"
        = some (.bool true)
    ∧ getField (sendPasswordResetEmail env c email token st).outcome "development"
        = some (.bool true)
    ∧ (sendPasswordResetEmail env c email token st).fallbackLogs
        = [("PASSWORD RESET EMAIL", email, resetUrlOf env token)]
    ∧ (sendPasswordResetEmail env c email token st).state.transporter = none := by
  have h := getTransporter_noCreds env c st hcred ht
  simp [sendVerificationEmail, sendPasswordResetEmail, h,
    verificationDevOutcome, resetDevOutcome, getField]

/-- Witness for C2 at a concrete input. -/
theorem sendEmail_missing_creds_fallback_witness :
    ((truthy envEmpty.EMAIL_USER && truthy envEmpty.EMAIL_PASS) = false)
    ∧ EmailState.initial.transporter = none
    ∧ getField (sendVerificationEmail envEmpty ⟨true, false, .ok⟩ "a@b.c" "t1"
        EmailState.initial).outcome "development" = some (.bool true) :=
  ⟨rfl, rfl, (sendEmail_missing_creds_fallback envEmpty ⟨true, false, .ok⟩ "a@b.c" "t1"
      EmailState.initial rfl rfl).2.2.1⟩

/-- C3: when a transport handle is available and `sendMail` rejects with
code `ESOCKET`, `ETIMEDOUT` or `ECONNREFUSED`, both dispatchers invoke the
console fallback (once, with the recipient and action URL) and return
`success: true`, `development: true` with the message naming an SMTP
connection failure rather than any other kind of failure. -/
theorem sendEmail_transient_error_fallback (env : Env) (c : Collab)
    (email token : String) (st : EmailState) (t : TransportConfig) (e : JsError)
    (hT : (getTransporter env c st).1 = some t)
    (hs : c.send = .fail e)
    (hcode : e.code = some "ESOCKET" ∨ e.code = some "ETIMEDOUT"
      ∨ e.code = some "ECONNREFUSED") :
    (sendVerificationEmail env c email token st).outcome
        = verificationSmtpFallbackOutcome (verificationUrlOf env token)
    ∧ (sendVerificationEmail env c email token st).fallbackLogs
        = [("VERIFICATION EMAIL", email, verificationUrlOf env token)]
    ∧ getField (sendVerificationEmail env c email token st).outcome "success"
        = some (.bool true)
    ∧ getField (sendVerificationEmail env c email token st).outcome "development"
        = some (.bool true)
    ∧ getField (sendVerificationEmail env c email token st).outcome "message"
        = some (.str "Email logged to console (SMTP connection failed - check your network/firewall)")
    ∧ (sendPasswordResetEmail env c email token st).outcome
        = resetSmtpFallbackOutcome (resetUrlOf env token)
    ∧ (sendPasswordResetEmail env c email token st).fallbackLogs
        = [("PASSWORD RESET EMAIL", email, resetUrlOf env token)]
    ∧ getField (sendPasswordResetEmail env c email token st).outcome "success"
        = some (.bool true)
    ∧ getField (sendPasswordResetEmail env c email token st).outcome "development"
        = some (.bool true)
    ∧ getField (sendPasswordResetEmail env c email token st).outcome "message"
        = some (.str "Email logged to console (SMTP connection failed - check your network/firewall)") := by
  have hb : (e.code == some "ESOCKET" || e.code == some "ETIMEDOUT"
      || e.code == some "ECONNREFUSED") = true := by
    rcases hcode with h | h | h <;> simp [h]
  simp [sendVerificationEmail, sendPasswordResetEmail, hT, hs, hb, getField,
    verificationSmtpFallbackOutcome, resetSmtpFallbackOutcome]

/-- Witness for C3 at a concrete input. -/
theorem sendEmail_transient_error_fallback_witness :
    (getTransporter envEmpty ⟨true, false, .fail ⟨some "ETIMEDOUT", "connect timed out"⟩⟩
        ⟨some (mkTransportConfig envEmpty), true⟩).1 = some (mkTransportConfig envEmpty)
    ∧ getField (sendVerificationEmail envEmpty
        ⟨true, false, .fail ⟨some "ETIMEDOUT", "connect timed out"⟩⟩ "a@b.c" "t1"
        ⟨some (mkTransportConfig envEmpty), true⟩).outcome "message"
      = some (.str "Email logged to console (SMTP connection failed - check your network/firewall)") :=
  ⟨rfl, (sendEmail_transient_error_fallback envEmpty
      ⟨true, false, .fail ⟨some "ETIMEDOUT", "connect timed out"⟩⟩ "a@b.c" "t1"
      ⟨some (mkTransportConfig envEmpty), true⟩ (mkTransportConfig envEmpty)
      ⟨some "ETIMEDOUT", "connect timed out"⟩ rfl rfl
      (Or.inr (Or.inl rfl))).2.2.2.2.1⟩

/-- C4: when a transport handle is available and `sendMail` rejects with a
code that is none of `ESOCKET`, `ETIMEDOUT`, `ECONNREFUSED`, both
dispatchers return `success: false` with the fixed per-kind message and the
underlying error text under `error`; no console fallback occurs and exactly
one send is attempted (no retry). -/
theorem sendEmail_permanent_error_failure (env : Env) (c : Collab)
    (email token : String) (st : EmailState) (t : TransportConfig) (e : JsError)
    (hT : (getTransporter env c st).1 = some t)
    (hs : c.send = .fail e)
    (hb : (e.code == some "ESOCKET" || e.code == some "ETIMEDOUT"
      || e.code == some "ECONNREFUSED") = false) :
    (sendVerificationEmail env c email token st).outcome
        = verificationFailedOutcome e.message
    ∧ getField (sendVerificationEmail env c email token st).outcome "success"
        = some (.bool false)
    ∧ getField (sendVerificationEmail env c email token st).outcome "message"
        = some (.str "Failed to send verification email")
    ∧ getField (sendVerificationEmail env c email token st).outcome "error"
        = some (.str e.message)
    ∧ (sendVerificationEmail env c email token st).fallbackLogs = []
    ∧ (sendVerificationEmail env c email token st).sendAttempts = 1
    ∧ (sendPasswordResetEmail env c email token st).outcome
        = resetFailedOutcome e.message
    ∧ getField (sendPasswordResetEmail env c email token st).outcome "success"
        = some (.bool false)
    ∧ getField (sendPasswordResetEmail env c email token st).outcome "message"
        = some (.str "Failed to send password reset email")
    ∧ getField (sendPasswordResetEmail env c email token st).outcome "error"
        = some (.str e.message)
    ∧ (sendPasswordResetEmail env c email token st).fallbackLogs = []
    ∧ (sendPasswordResetEmail env c email token st).sendAttempts = 1 := by
  simp [sendVerificationEmail, sendPasswordResetEmail, hT, hs, hb, getField,
    verificationFailedOutcome, resetFailedOutcome]

/-- Witness for C4 at a concrete input. -/
theorem sendEmail_permanent_error_failure_witness :
    (getTransporter envEmpty ⟨true, false, .fail ⟨some "EAUTH", "Invalid login"⟩⟩
        ⟨some (mkTransportConfig envEmpty), true⟩).1 = some (mkTransportConfig envEmpty)
    ∧ getField (sendVerificationEmail envEmpty
        ⟨true, false, .fail ⟨some "EAUTH", "Invalid login"⟩⟩ "a@b.c" "t1"
        ⟨some (mkTransportConfig envEmpty), true⟩).outcome "error"
      = some (.str "Invalid login") :=
  ⟨rfl, (sendEmail_permanent_error_failure envEmpty
      ⟨true, false, .fail ⟨some "EAUTH", "Invalid login"⟩⟩ "a@b.c" "t1"
      ⟨some (mkTransportConfig envEmpty), true⟩ (mkTransportConfig envEmpty)
      ⟨some "EAUTH", "Invalid login"⟩ rfl rfl rfl).2.2.2.1⟩

/-- C5: the availability check runs at most once per process — after the
first `getTransporter` call from the initial state, a second call returns
the memoized pair unchanged, for ANY later environment and collaborator
behaviour; in particular, a first call that cached Unavailable keeps
returning Unavailable even if `EMAIL_USER` and `EMAIL_PASS` are set
afterwards, without re-reading the environment. -/
theorem getTransporter_memoized (env env' : Env) (c c' : Collab) :
    getTransporter env' c' (getTransporter env c EmailState.initial).2
      = getTransporter env c EmailState.initial := by
  cases hL : c.nodemailerLoads with
  | false => simp [getTransporter, EmailState.initial, hL]
  | true =>
    cases hU : truthy env.EMAIL_USER <;> cases hP : truthy env.EMAIL_PASS <;>
      cases hX : c.createTransportThrows <;>
        simp [getTransporter, EmailState.initial, hL, hU, hP, hX]

/-- C6: action URLs are the configured client base (default
`http://localhost:5173`) concatenated with the fixed path segment and the
token verbatim — no URL-encoding; with `CLIENT_URL` unset and token
`"abc123"` the two URLs are exactly the required literals, and the fallback
outcome carries exactly this URL for every token. -/
theorem action_url_construction :
    (∀ env token, verificationUrlOf env token
        = jsOr env.CLIENT_URL "http://localhost:5173" ++ "/verify-email/" ++ token)
    ∧ (∀ env token, resetUrlOf env token
        = jsOr env.CLIENT_URL "http://localhost:5173" ++ "/reset-password/" ++ token)
    ∧ verificationUrlOf envEmpty "abc123" = "http://localhost:5173/verify-email/abc123"
    ∧ resetUrlOf envEmpty "abc123" = "http://localhost:5173/reset-password/abc123"
    ∧ (∀ c token, getField (sendVerificationEmail envEmpty c "user@example.com" token
          EmailState.initial).outcome "verificationUrl"
        = some (.str ("http://localhost:5173/verify-email/" ++ token)))
    ∧ (∀ c token, getField (sendPasswordResetEmail envEmpty c "user@example.com" token
          EmailState.initial).outcome "resetUrl"
        = some (.str ("http://localhost:5173/reset-password/" ++ token))) := by
  refine ⟨fun env token => rfl, fun env token => rfl, rfl, rfl, ?_, ?_⟩
  · intro c token
    have h := getTransporter_noCreds envEmpty c EmailState.initial rfl rfl
    simp [sendVerificationEmail, h, verificationDevOutcome, getField]
    rfl
  · intro c token
    have h := getTransporter_noCreds envEmpty c EmailState.initial rfl rfl
    simp [sendPasswordResetEmail, h, resetDevOutcome, getField]
    rfl

/-- C7 (counterexample): with `EMAIL_PORT = "465x"` the transport the
resolver constructs has parsed port 465 yet `secure = false`, refuting
"`secure` is true iff the parsed integer port equals 465". -/
theorem transport_secure_not_iff_parsed_port :
    ((getTransporter ⟨some "u", some "p", none, some "465x", none⟩
        ⟨true, false, .ok⟩ EmailState.initial).1.map TransportConfig.port
      = some (some 465))
    ∧ ((getTransporter ⟨some "u", some "p", none, some "465x", none⟩
        ⟨true, false, .ok⟩ EmailState.initial).1.map TransportConfig.secure
      = some false) := by decide

/-- C7 (amended): the `secure` flag of the constructed transport
configuration is true iff the `EMAIL_PORT` string is exactly `"465"` — the
source compares the raw string, not the parsed integer; when the string is
`"465"` the parsed port is indeed 465, but a parsed port of 465 (such as
from `"465x"`) does not force `secure = true`. -/
theorem transport_secure_iff_port_string (env : Env) :
    ((mkTransportConfig env).secure = true ↔ env.EMAIL_PORT = some "465")
    ∧ (env.EMAIL_PORT = some "465" → (mkTransportConfig env).port = some 465) := by
  constructor
  · simp [mkTransportConfig]
  · intro h
    show jsParseInt (jsOr env.EMAIL_PORT "587") = some 465
    rw [h]
    decide

/-- Witness for the amended C7 at a concrete input. -/
theorem transport_secure_iff_port_string_witness :
    (mkTransportConfig ⟨some "u", some "p", none, some "465", none⟩).port = some 465 :=
  (transport_secure_iff_port_string ⟨some "u", some "p", none, some "465", none⟩).2 rfl

/-- C8: for every environment, collaborator behaviour (library load
failure, construction throw, send failure of any category) and module
state, each dispatcher returns one of its four normalized outcome objects;
the embedding is a total function on this whole behaviour space, so no
failure escapes as an exception and none terminates the process. -/
theorem sendEmail_total_normalized (env : Env) (c : Collab) (email token : String)
    (st : EmailState) :
    ((sendVerificationEmail env c email token st).outcome
        = verificationDevOutcome (verificationUrlOf env token)
      ∨ (sendVerificationEmail env c email token st).outcome = verificationSentOutcome
      ∨ (sendVerificationEmail env c email token st).outcome
          = verificationSmtpFallbackOutcome (verificationUrlOf env token)
      ∨ ∃ m, (sendVerificationEmail env c email token st).outcome
          = verificationFailedOutcome m)
    ∧ ((sendPasswordResetEmail env c email token st).outcome
        = resetDevOutcome (resetUrlOf env token)
      ∨ (sendPasswordResetEmail env c email token st).outcome = resetSentOutcome
      ∨ (sendPasswordResetEmail env c email token st).outcome
          = resetSmtpFallbackOutcome (resetUrlOf env token)
      ∨ ∃ m, (sendPasswordResetEmail env c email token st).outcome
          = resetFailedOutcome m) :=
  ⟨verification_outcome_cases env c email token st,
   reset_outcome_cases env c email token st⟩

/-- C9 (counterexample): the upload succeeds but the success-path
`unlinkSync` throws; that cleanup failure is re-raised into the outer catch
and the response is the 500 error shape carrying the cleanup error's
message — so a cleanup failure does change the response away from the 200
success shape. -/
theorem uploadFile_success_cleanup_failure_500 :
    (uploadFile (some "/tmp/upload-1")
        ⟨.ok ⟨"https://res.example/u.png", "u"⟩, .error "EACCES: permission denied",
          .ok ()⟩).response.status = 500
    ∧ getField (uploadFile (some "/tmp/upload-1")
        ⟨.ok ⟨"https://res.example/u.png", "u"⟩, .error "EACCES: permission denied",
          .ok ()⟩).response.body "message"
      = some (.str "EACCES: permission denied")
    ∧ (uploadFile (some "/tmp/upload-1")
        ⟨.ok ⟨"https://res.example/u.png", "u"⟩, .error "EACCES: permission denied",
          .ok ()⟩).response.status ≠ 200 :=
  ⟨rfl, rfl, by decide⟩

/-- C9 (amended): `uploadFile` attempts removal of the temporary file on
both paths. On the failure path (the upload threw) the removal failure is
caught by the inner try/catch and only logged: the 500 response is
identical whether that cleanup succeeds or throws. On the success path the
removal is unguarded: a throw there routes control to the catch block, a
second removal is attempted, and the response becomes the 500 error shape
with the removal error's message instead of the 200 success shape. -/
theorem uploadFile_cleanup (p : String) (r : CloudinaryResult) (m msg : String)
    (u1 u2 : Except String Unit) :
    uploadFile (some p) ⟨.ok r, .ok (), u2⟩ = ⟨⟨200, uploadSuccessBody r⟩, 1, 0⟩
    ∧ (uploadFile (some p) ⟨.ok r, .error m, u2⟩).response = ⟨500, uploadErrBody m⟩
    ∧ (uploadFile (some p) ⟨.ok r, .error m, u2⟩).unlinkCalls = 2
    ∧ (uploadFile (some p) ⟨.error msg, u1, u2⟩).response = ⟨500, uploadErrBody msg⟩
    ∧ (uploadFile (some p) ⟨.error msg, u1, u2⟩).unlinkCalls = 1
    ∧ (uploadFile (some p) ⟨.error msg, .error m, u2⟩).response
        = (uploadFile (some p) ⟨.error msg, .ok (), u2⟩).response
    ∧ (uploadFile (some p) ⟨.error msg, .error m, u2⟩).unlinkErrorsLogged = 1 := by
  refine ⟨rfl, ?_, ?_, ?_, ?_, rfl, rfl⟩ <;> cases u1 <;> cases u2 <;> rfl

/-- C10: with both credentials truthy, the library loaded and
`createTransport` throwing, the resolver catches the throw, marks the
check done and returns `null`; every later resolver call — under any
environment and collaborator behaviour, hence without re-attempting
construction — returns `null` again, and every later dispatcher call,
of either operation, produces exactly the credentials-absent development
fallback: `success: true`, `development: true`, message "Email logged to
console (check server logs)", one console fallback invocation. -/
theorem getTransporter_create_throw_unavailable (env : Env) (c : Collab)
    (hU : truthy env.EMAIL_USER = true) (hP : truthy env.EMAIL_PASS = true)
    (hL : c.nodemailerLoads = true) (hX : c.createTransportThrows = true) :
    getTransporter env c EmailState.initial = (none, ⟨none, true⟩)
    ∧ (∀ env' c', getTransporter env' c' ⟨none, true⟩ = (none, ⟨none, true⟩))
    ∧ (∀ env' c' email token,
        (sendVerificationEmail env' c' email token (⟨none, true⟩ : EmailState)).outcome
          = verificationDevOutcome (verificationUrlOf env' token)
        ∧ (sendVerificationEmail env' c' email token (⟨none, true⟩ : EmailState)).fallbackLogs
          = [("VERIFICATION EMAIL", email, verificationUrlOf env' token)]
        ∧ getField (sendVerificationEmail env' c' email token
            (⟨none, true⟩ : EmailState)).outcome "message"
          = some (.str "Email logged to console (check server logs)"))
    ∧ (∀ env' c' email token,
        (sendPasswordResetEmail env' c' email token (⟨none, true⟩ : EmailState)).outcome
          = resetDevOutcome (resetUrlOf env' token)
        ∧ (sendPasswordResetEmail env' c' email token (⟨none, true⟩ : EmailState)).fallbackLogs
          = [("PASSWORD RESET EMAIL", email, resetUrlOf env' token)]
        ∧ getField (sendPasswordResetEmail env' c' email token
            (⟨none, true⟩ : EmailState)).outcome "message"
          = some (.str "Email logged to console (check server logs)")) := by
  refine ⟨?_, fun env' c' => rfl, fun env' c' email token => ?_, fun env' c' email token => ?_⟩
  · simp [getTransporter, EmailState.initial, hL, hU, hP, hX]
  · have h : getTransporter env' c' ⟨none, true⟩ = (none, ⟨none, true⟩) := rfl
    simp [sendVerificationEmail, h, verificationDevOutcome, getField]
  · have h : getTransporter env' c' ⟨none, true⟩ = (none, ⟨none, true⟩) := rfl
    simp [sendPasswordResetEmail, h, resetDevOutcome, getField]

/-- Witness for C10 at a concrete input. -/
theorem getTransporter_create_throw_unavailable_witness :
    getTransporter ⟨some "u", some "p", none, none, none⟩ ⟨true, true, .ok⟩
      EmailState.initial = (none, ⟨none, true⟩) :=
  (getTransporter_create_throw_unavailable ⟨some "u", some "p", none, none, none⟩
      ⟨true, true, .ok⟩ rfl rfl rfl rfl).1
